import Mathlib

/-!
Verification of the DCGAN training program (`assignment.py`).

The development shallowly embeds the program's pure control and arithmetic
structure:

* the numerically stable `log` utility and the probability clipping performed
  by the Keras binary cross-entropy used in `Discriminator_Model.loss_function`;
* the pixel rescaling performed by `test()`;
* the per-epoch training loop `train()` (update cadence, checkpoint saves,
  FID evaluation cadence, and the final average);
* the generator's layer cascade as a shape pipeline with its final `tanh`;
* the checkpoint manager and the startup/restore control flow of `main()`.

Gradient values, tensors and optimizer arithmetic are abstracted as opaque
update functions; everything the claims quantify over (iteration indices,
cadences, clipping bounds, shapes, checkpoint bookkeeping) is embedded
concretely.
-/

/-- The clamp floor `1e-5` used by the standalone stable `log` utility
(`assignment.py` line 80: `tf.maximum(x, 1e-5)`). -/
def logFloor : ℚ := 1 / 100000

/-- Model of the standalone utility `log(x) = tf.math.log(tf.maximum(x, 1e-5))`
(`assignment.py` lines 74-80): the argument that actually reaches the
logarithm, namely `max x 1e-5`. -/
def stableLogClamp (x : ℚ) : ℚ := max x logFloor

/-- The Keras backend epsilon `1e-7`.  `Discriminator_Model.loss_function`
(`assignment.py` lines 264-276) computes its loss with
`tf.keras.losses.BinaryCrossentropy()` (line 250), which clips every
probability to `[epsilon, 1 - epsilon]` with `epsilon = 1e-7` before taking
logarithms; it does not call the standalone stable `log` utility. -/
def kerasEpsilon : ℚ := 1 / 10000000

/-- The clipping applied by the library binary cross-entropy to a probability
before it reaches a logarithm. -/
def clipProb (p : ℚ) : ℚ := max kerasEpsilon (min p (1 - kerasEpsilon))

/-- The list of values a binary cross-entropy evaluation passes to the
logarithm for a batch of probabilities: for each probability `p` both
`log (clip p)` and `log (1 - clip p)` are evaluated. -/
def bceLogArgs (probs : List ℚ) : List ℚ :=
  probs.map clipProb ++ probs.map (fun p => 1 - clipProb p)

/-- All values passed to a logarithm while evaluating
`Discriminator_Model.loss_function(disc_real_output, disc_fake_output)`:
`real_loss = BCE(ones, real)` plus `fake_loss = BCE(zeros, fake)`
(`assignment.py` lines 273-275). -/
def discLossLogArgs (real fake : List ℚ) : List ℚ :=
  bceLogArgs real ++ bceLogArgs fake

/-- The pixel rescaling performed by `test()` before writing images
(`assignment.py` line 352): `img = ((img / 2) - 0.5) * 255`. -/
def testRescale (x : ℚ) : ℚ := (x / 2 - 1 / 2) * 255

/-- Parameters of one `train()` run (`assignment.py` lines 282-335).  The
gradient computations are abstracted into iteration- and batch-indexed update
functions on the generator parameters `G` and discriminator parameters `D`;
`fid` abstracts `fid_function` on the batch of that iteration. -/
structure TrainConfig (G D β : Type) where
  numGenUpdates : ℕ
  saveEvery : ℕ
  updG : ℕ → β → G → G
  updD : ℕ → β → D → D
  fid : ℕ → β → ℚ

/-- The mutable state threaded through the loop body of `train()`:
both networks' parameters, the number of `manager.save()` calls, and the
FID accumulator `cumulative` with its counter `eval_count`, plus a count of
completed iterations. -/
structure TrainState (G D : Type) where
  gen : G
  disc : D
  saves : ℕ
  cumulative : ℚ
  evalCount : ℕ
  iters : ℕ

/-- One iteration of the `for iteration, batch in enumerate(dataset_iterator)`
loop (`assignment.py` lines 296-333): the generator update is applied
unconditionally; the discriminator update only when
`iteration % num_gen_updates == 0`; a checkpoint is saved when
`iteration % save_every == 0`; the FID is accumulated when
`iteration % 500 == 0`. -/
def trainStep {G D β : Type} (cfg : TrainConfig G D β) (s : TrainState G D)
    (p : ℕ × β) : TrainState G D :=
  { gen := cfg.updG p.1 p.2 s.gen
    disc := if p.1 % cfg.numGenUpdates == 0 then cfg.updD p.1 p.2 s.disc else s.disc
    saves := if p.1 % cfg.saveEvery == 0 then s.saves + 1 else s.saves
    cumulative := if p.1 % 500 == 0 then s.cumulative + cfg.fid p.1 p.2 else s.cumulative
    evalCount := if p.1 % 500 == 0 then s.evalCount + 1 else s.evalCount
    iters := s.iters + 1 }

/-- The state at loop entry: `cumulative = 0`, `eval_count = 0`. -/
def trainInit {G D : Type} (g0 : G) (d0 : D) : TrainState G D :=
  ⟨g0, d0, 0, 0, 0, 0⟩

/-- The state after folding the loop body over the enumerated dataset. -/
def trainFold {G D β : Type} (cfg : TrainConfig G D β) (g0 : G) (d0 : D)
    (batches : List β) : TrainState G D :=
  batches.enum.foldl (trainStep cfg) (trainInit g0 d0)

/-- One epoch of `train()` (`assignment.py` lines 282-335).  The final
statement `return float(cumulative/eval_count)` raises `ZeroDivisionError`
when `eval_count == 0`; that failure is modelled as `none`. -/
def train {G D β : Type} (cfg : TrainConfig G D β) (g0 : G) (d0 : D)
    (batches : List β) : Option (TrainState G D × ℚ) :=
  if (trainFold cfg g0 d0 batches).evalCount = 0 then none
  else some (trainFold cfg g0 d0 batches,
    (trainFold cfg g0 d0 batches).cumulative
      / ((trainFold cfg g0 d0 batches).evalCount : ℚ))

/-- A concrete training configuration used to instantiate the generic
theorems: default cadences `num_gen_updates = 2`, `save_every = 500`,
counting updates on `ℕ`-valued parameters. -/
def exConfig : TrainConfig ℕ ℕ ℕ :=
  ⟨2, 500, fun _ _ g => g + 1, fun _ _ d => d + 1, fun _ _ => 0⟩

/-- A four-dimensional tensor shape `[batch, height, width, channels]`. -/
structure Shape4 where
  batch : ℕ
  height : ℕ
  width : ℕ
  channels : ℕ
deriving DecidableEq

/-- Output width of the generator's first `Dense` layer
(`assignment.py` line 125): `4*4*512*scale_model`. -/
def denseUnits (scale : ℕ) : ℕ := 4 * 4 * 512 * scale

/-- Output shape of a `Conv2DTranspose` layer with `padding='same'` and the
given stride: each spatial dimension is multiplied by the stride and the
channel count becomes the filter count. -/
def conv2dTransposeSame (filters stride : ℕ) (s : Shape4) : Shape4 :=
  ⟨s.batch, s.height * stride, s.width * stride, filters⟩

/-- The shape pipeline of `Generator_Model` (`assignment.py` lines 116-166):
`Dense(4*4*512*scale)`, `Reshape([4, 4, 512*scale])`, then four
`Conv2DTranspose` stages with stride `(2, 2)` and `padding='same'` and filter
counts `256*scale`, `128*scale`, `64*scale`, `3`. -/
def generatorOutputShape (scale B Z : ℕ) : Shape4 :=
  let inputShape : ℕ × ℕ := (B, Z)
  let afterDense : ℕ × ℕ := (inputShape.1, denseUnits scale)
  let reshaped : Shape4 := ⟨afterDense.1, 4, 4, 512 * scale⟩
  let up1 := conv2dTransposeSame (256 * scale) 2 reshaped
  let up2 := conv2dTransposeSame (128 * scale) 2 up1
  let up3 := conv2dTransposeSame (64 * scale) 2 up2
  conv2dTransposeSame 3 2 up3

/-- The activation of the generator's final `Conv2DTranspose` layer
(`assignment.py` line 161): `tf.keras.activations.tanh`, applied to each
output pre-activation. -/
noncomputable def generatorFinalActivation (x : ℝ) : ℝ := Real.tanh x

/-- Modelled from the spec: the checkpoint manager
(`tf.train.CheckpointManager(checkpoint, checkpoint_dir, max_to_keep=3)`,
`assignment.py` line 375, whose implementation is external to this
repository).  Checkpoints are kept newest first, each tagged with a
monotonically increasing identifier. -/
structure CkptManager (S : Type) where
  kept : List (ℕ × S)
  nextId : ℕ
  maxToKeep : ℕ

/-- A fresh manager with no checkpoints and retention bound `K`. -/
def CkptManager.empty (S : Type) (K : ℕ) : CkptManager S :=
  ⟨[], 0, K⟩

/-- Modelled from the spec: `save(state)` writes a new checkpoint tagged with
a monotonically increasing identifier, then deletes the oldest checkpoint(s)
beyond the retention bound. -/
def CkptManager.save {S : Type} (m : CkptManager S) (st : S) : CkptManager S :=
  { kept := ((m.nextId, st) :: m.kept).take m.maxToKeep
    nextId := m.nextId + 1
    maxToKeep := m.maxToKeep }

/-- The most recent checkpoint, if any (`manager.latest_checkpoint`). -/
def CkptManager.latestCheckpoint {S : Type} (m : CkptManager S) : Option (ℕ × S) :=
  m.kept.head?

/-- Modelled from the spec: `restore_latest()` loads the most recent
checkpoint if one exists and reports `NotFound` (here `none`) otherwise. -/
def restoreLatest {S : Type} (m : CkptManager S) : Option S :=
  m.latestCheckpoint.map Prod.snd

/-- A sequence of `save` calls, one per state in order. -/
def saveAll {S : Type} (m : CkptManager S) (states : List S) : CkptManager S :=
  states.foldl CkptManager.save m

/-- The outcome of the restore phase at the top of `main()`: the parameters
the run proceeds with and how many restore attempts were made. -/
structure StartupResult (P : Type) where
  params : P
  restoreAttempts : ℕ

/-- The restore condition of `main()` (`assignment.py` line 380):
`if args.restore_checkpoint or args.mode == 'test'`. -/
def restoreRequested (restoreFlag : Bool) (mode : String) : Bool :=
  restoreFlag || mode == "test"

/-- Modelled from the spec: the restore phase of `main()` (lines 380-382).
When restoration is requested, `checkpoint.restore(manager.latest_checkpoint)`
is executed once; with no checkpoint on disk the latest checkpoint is absent
and the call leaves the freshly initialized parameters in place rather than
raising an error. -/
def runStartup {P : Type} (restoreFlag : Bool) (mode : String)
    (latest : Option P) (fresh : P) : StartupResult P :=
  if restoreRequested restoreFlag mode then
    { params := latest.getD fresh, restoreAttempts := 1 }
  else
    { params := fresh, restoreAttempts := 0 }

/-- The observable phases of `main()` after model construction. -/
inductive MainEvent
  | restoreCkpt
  | trainEpoch
  | testSample
deriving DecidableEq

/-- The ordered phases executed by `main()` (`assignment.py` lines 380-396):
an optional restore, then one training pass per epoch when in train mode,
then sampling when in test mode. -/
def mainEvents (restoreFlag : Bool) (mode : String) (numEpochs : ℕ) :
    List MainEvent :=
  (if restoreRequested restoreFlag mode then [MainEvent.restoreCkpt] else [])
    ++ List.replicate (if mode == "train" then numEpochs else 0) MainEvent.trainEpoch
    ++ (if mode == "test" then [MainEvent.testSample] else [])

/-- Number of restore attempts in a run of `main()`. -/
def restoreCount (l : List MainEvent) : ℕ :=
  (l.filter (· == MainEvent.restoreCkpt)).length

/-- Whether every restore attempt precedes all training and sampling work. -/
def restoresFirst (l : List MainEvent) : Bool :=
  ((l.dropWhile (· == MainEvent.restoreCkpt)).filter
    (· == MainEvent.restoreCkpt)).isEmpty

/-! ## Helper lemmas -/

theorem foldl_trainStep_gen {G D β : Type} (cfg : TrainConfig G D β) :
    ∀ (l : List (ℕ × β)) (s : TrainState G D),
      (l.foldl (trainStep cfg) s).gen
        = l.foldl (fun g p => cfg.updG p.1 p.2 g) s.gen := by
  intro l
  induction l with
  | nil => intro s; rfl
  | cons p t ih =>
    intro s
    rw [List.foldl_cons, List.foldl_cons, ih]
    rfl

theorem foldl_trainStep_disc {G D β : Type} (cfg : TrainConfig G D β) :
    ∀ (l : List (ℕ × β)) (s : TrainState G D),
      (l.foldl (trainStep cfg) s).disc
        = (l.filter (fun p => p.1 % cfg.numGenUpdates == 0)).foldl
            (fun d p => cfg.updD p.1 p.2 d) s.disc := by
  intro l
  induction l with
  | nil => intro s; rfl
  | cons p t ih =>
    intro s
    rw [List.foldl_cons, ih, List.filter_cons]
    by_cases hp : (p.1 % cfg.numGenUpdates == 0) = true
    · rw [if_pos hp, List.foldl_cons]
      congr 1
      unfold trainStep
      dsimp only
      rw [if_pos hp]
    · rw [if_neg hp]
      congr 1
      unfold trainStep
      dsimp only
      rw [if_neg hp]

theorem foldl_trainStep_evalCount_le {G D β : Type} (cfg : TrainConfig G D β) :
    ∀ (l : List (ℕ × β)) (s : TrainState G D),
      s.evalCount ≤ (l.foldl (trainStep cfg) s).evalCount := by
  intro l
  induction l with
  | nil => intro s; exact le_refl _
  | cons p t ih =>
    intro s
    refine le_trans ?_ (ih (trainStep cfg s p))
    unfold trainStep
    dsimp only
    split <;> omega

theorem clipProb_lb (p : ℚ) : kerasEpsilon ≤ clipProb p :=
  le_max_left _ _

theorem clipProb_ub (p : ℚ) : clipProb p ≤ 1 - kerasEpsilon := by
  unfold clipProb
  apply max_le
  · norm_num [kerasEpsilon]
  · exact min_le_right _ _

theorem bceLogArgs_lb (probs : List ℚ) (a : ℚ) (h : a ∈ bceLogArgs probs) :
    kerasEpsilon ≤ a := by
  unfold bceLogArgs at h
  rcases List.mem_append.mp h with h1 | h2
  · rcases List.mem_map.mp h1 with ⟨p, -, rfl⟩
    exact clipProb_lb p
  · rcases List.mem_map.mp h2 with ⟨p, -, rfl⟩
    have hub := clipProb_ub p
    linarith

theorem clipProb_small : clipProb (1 / 1000000 : ℚ) = 1 / 1000000 := by
  unfold clipProb kerasEpsilon
  rw [min_eq_left (by norm_num), max_eq_right (by norm_num)]

theorem clipProb_half : clipProb (1 / 2 : ℚ) = 1 / 2 := by
  unfold clipProb kerasEpsilon
  rw [min_eq_left (by norm_num), max_eq_right (by norm_num)]

/-! ## Claim theorems -/

/-- Claim C1: over any run of `train()`, the generator parameters are updated
on every iteration, while the discriminator parameters are updated exactly on
the iterations with `iteration % num_gen_updates == 0` and are left unchanged
on all other iterations; with `num_gen_updates = 2` over 10 iterations these
are exactly iterations 0, 2, 4, 6, 8. -/
theorem C1_update_cadence {G D β : Type} (cfg : TrainConfig G D β)
    (g0 : G) (d0 : D) (batches : List β) :
    (trainFold cfg g0 d0 batches).gen
        = batches.enum.foldl (fun g p => cfg.updG p.1 p.2 g) g0
      ∧ (trainFold cfg g0 d0 batches).disc
          = (batches.enum.filter (fun p => p.1 % cfg.numGenUpdates == 0)).foldl
              (fun d p => cfg.updD p.1 p.2 d) d0
      ∧ (List.range 10).filter (fun i => i % 2 == 0) = [0, 2, 4, 6, 8] :=
  ⟨foldl_trainStep_gen cfg batches.enum (trainInit g0 d0),
   foldl_trainStep_disc cfg batches.enum (trainInit g0 d0),
   by decide⟩

/-- Claim C2 (code bug): the rescaling in `test()` is `((x / 2) - 0.5) * 255`,
which sends the pixel value `-1` to `-255` and `1` to `0`, contradicting both
the claim and the source's own comment that it rescales from `(-1, 1)` to
`(0, 255)`. -/
theorem C2_rescale_eval : testRescale (-1) = -255 ∧ testRescale 1 = 0 := by
  constructor <;> norm_num [testRescale]

/-- Claim C4 counterexample: `Discriminator_Model.loss_function` does not
clamp probabilities to the `1e-5` floor of the standalone stable-log utility:
on the real-score batch `[1e-6]` the cross-entropy passes `1e-6` to the
logarithm, and `1e-6` is strictly below the `1e-5` floor. -/
theorem C4_counterexample :
    (1 / 1000000 : ℚ) ∈ discLossLogArgs [1 / 1000000] []
      ∧ ¬ logFloor ≤ (1 / 1000000 : ℚ) := by
  constructor
  · unfold discLossLogArgs bceLogArgs
    exact List.mem_append.mpr (Or.inl (List.mem_append.mpr (Or.inl
      (List.mem_map.mpr ⟨1 / 1000000, List.mem_singleton_self _, clipProb_small⟩))))
  · norm_num [logFloor]

/-- Claim C4 (amended): every value the discriminator loss passes to a
logarithm is clipped by the library cross-entropy to at least the Keras
epsilon `1e-7` — hence positive, so the loss is never evaluated as `log 0` —
while the `1e-5` floor belongs to the standalone stable-log utility
`stableLogClamp`, which `loss_function` does not use. -/
theorem C4_amended_stability (real fake : List ℚ) (a : ℚ)
    (h : a ∈ discLossLogArgs real fake) :
    kerasEpsilon ≤ a ∧ 0 < a ∧ logFloor ≤ stableLogClamp a := by
  have hlb : kerasEpsilon ≤ a := by
    rcases List.mem_append.mp h with h1 | h2
    · exact bceLogArgs_lb real a h1
    · exact bceLogArgs_lb fake a h2
  refine ⟨hlb, ?_, ?_⟩
  · have : (0 : ℚ) < kerasEpsilon := by norm_num [kerasEpsilon]
    linarith
  · exact le_max_right _ _

/-- Witness for the amended claim C4 at a concrete input. -/
theorem C4_witness :
    ((1 : ℚ) / 2 ∈ discLossLogArgs [1 / 2] [])
      ∧ (kerasEpsilon ≤ (1 : ℚ) / 2 ∧ 0 < (1 : ℚ) / 2
          ∧ logFloor ≤ stableLogClamp (1 / 2)) :=
  ⟨List.mem_append.mpr (Or.inl (List.mem_append.mpr (Or.inl
      (List.mem_map.mpr ⟨1 / 2, List.mem_singleton_self _, clipProb_half⟩)))),
   C4_amended_stability [1 / 2] [] (1 / 2)
     (List.mem_append.mpr (Or.inl (List.mem_append.mpr (Or.inl
       (List.mem_map.mpr ⟨1 / 2, List.mem_singleton_self _, clipProb_half⟩)))))⟩

/-- Claim C3: for a data source yielding exactly 3 batches, `train()` performs
exactly 3 iterations, terminates cleanly, evaluates the FID exactly once
(at iteration 0), and returns the accumulated score divided by that count of
1 — a finite mean, with no division by zero. -/
theorem C3_three_batch_epoch {G D β : Type} (cfg : TrainConfig G D β)
    (g0 : G) (d0 : D) (batches : List β) (h : batches.length = 3) :
    ∃ st q, train cfg g0 d0 batches = some (st, q)
      ∧ st.iters = 3 ∧ st.evalCount = 1 ∧ q = st.cumulative := by
  rcases batches with - | ⟨b0, - | ⟨b1, - | ⟨b2, - | ⟨b3, t⟩⟩⟩⟩ <;> simp at h
  have hev : (trainFold cfg g0 d0 [b0, b1, b2]).evalCount = 1 := rfl
  have hit : (trainFold cfg g0 d0 [b0, b1, b2]).iters = 3 := rfl
  refine ⟨trainFold cfg g0 d0 [b0, b1, b2],
    (trainFold cfg g0 d0 [b0, b1, b2]).cumulative
      / ((trainFold cfg g0 d0 [b0, b1, b2]).evalCount : ℚ), ?_, hit, hev, ?_⟩
  · unfold train
    rw [hev]
    norm_num
  · rw [hev]
    norm_num

/-- Witness for claim C3 on the concrete three-batch source `[5, 6, 7]`. -/
theorem C3_witness :
    ([5, 6, 7] : List ℕ).length = 3
      ∧ ∃ st q, train exConfig 0 0 [5, 6, 7] = some (st, q)
          ∧ st.iters = 3 ∧ st.evalCount = 1 ∧ q = st.cumulative :=
  ⟨rfl, C3_three_batch_epoch exConfig 0 0 [5, 6, 7] rfl⟩

/-- Claim C9: for every non-empty data source the FID evaluation branch runs
at iteration 0 (`0 % 500 == 0`), so the evaluation count is at least 1 and
`train()` returns a value; on an empty data source `train()` reaches the
division `cumulative / eval_count` with a zero count and fails (modelled as
`none`). -/
theorem C9_eval_at_iteration_zero {G D β : Type} (cfg : TrainConfig G D β)
    (g0 : G) (d0 : D) (batches : List β) (h : batches ≠ []) :
    (∃ st q, train cfg g0 d0 batches = some (st, q) ∧ 1 ≤ st.evalCount)
      ∧ train cfg g0 d0 ([] : List β) = none := by
  constructor
  · rcases batches with - | ⟨b, t⟩
    · exact absurd rfl h
    · have hfold : trainFold cfg g0 d0 (b :: t)
          = (List.enumFrom 1 t).foldl (trainStep cfg)
              (trainStep cfg (trainInit g0 d0) (0, b)) := by
        rw [trainFold, List.enum_cons]
        rfl
      have h1 : 1 ≤ (trainFold cfg g0 d0 (b :: t)).evalCount := by
        rw [hfold]
        have hbase : (trainStep cfg (trainInit g0 d0) (0, b)).evalCount = 1 := rfl
        calc 1 = (trainStep cfg (trainInit g0 d0) (0, b)).evalCount := hbase.symm
          _ ≤ _ := foldl_trainStep_evalCount_le cfg (List.enumFrom 1 t) _
      refine ⟨trainFold cfg g0 d0 (b :: t),
        (trainFold cfg g0 d0 (b :: t)).cumulative
          / ((trainFold cfg g0 d0 (b :: t)).evalCount : ℚ), ?_, h1⟩
      unfold train
      rw [if_neg (by omega)]
  · rfl

/-- Witness for claim C9 on the concrete one-batch source `[5]`. -/
theorem C9_witness :
    (([5] : List ℕ) ≠ [])
      ∧ ((∃ st q, train exConfig 0 0 [5] = some (st, q) ∧ 1 ≤ st.evalCount)
          ∧ train exConfig 0 0 ([] : List ℕ) = none) :=
  ⟨by simp, C9_eval_at_iteration_zero exConfig 0 0 [5] (by simp)⟩

/-- Claim C7: for every width multiplier, batch size `B` and latent
dimensionality `Z`, the generator's layer cascade maps a `[B, Z]` input
through four successive spatial doublings from `4×4` to a `[B, 64, 64, 3]`
output, and the final `tanh` activation keeps every output value in
`[-1, 1]`. -/
theorem C7_generator_output (scale B Z : ℕ) (x : ℝ) :
    generatorOutputShape scale B Z = ⟨B, 64, 64, 3⟩
      ∧ -1 ≤ generatorFinalActivation x ∧ generatorFinalActivation x ≤ 1 := by
  refine ⟨rfl, ?_, ?_⟩
  · simp only [generatorFinalActivation]
    rw [Real.tanh_eq_sinh_div_cosh, le_div_iff₀ (Real.cosh_pos x)]
    nlinarith [Real.cosh_sq x, Real.cosh_pos x, sq_nonneg (Real.sinh x + Real.cosh x)]
  · simp only [generatorFinalActivation]
    rw [Real.tanh_eq_sinh_div_cosh, div_le_one (Real.cosh_pos x)]
    nlinarith [Real.cosh_sq x, Real.cosh_pos x, sq_nonneg (Real.sinh x - Real.cosh x)]

/-- Claim C10: in test mode `main()` requests a checkpoint restore regardless
of the `--restore-checkpoint` flag, while in train mode the restore happens
exactly when the flag is given. -/
theorem C10_test_mode_restores (flag : Bool) :
    restoreRequested flag "test" = true ∧ restoreRequested flag "train" = flag := by
  cases flag <;> exact ⟨rfl, rfl⟩

theorem take_cons_take {α : Type} (x : α) (l : List α) (K : ℕ) :
    (x :: l.take K).take K = (x :: l).take K := by
  cases K with
  | zero => simp
  | succ k =>
    simp [List.take_succ_cons, List.take_take, min_eq_left (Nat.le_succ k)]

theorem saveAll_empty_spec {S : Type} (K : ℕ) (states : List S) :
    saveAll (CkptManager.empty S K) states
      = { kept := states.enum.reverse.take K
          nextId := states.length
          maxToKeep := K } := by
  induction states using List.reverseRecOn with
  | nil => simp [saveAll, CkptManager.empty]
  | append_singleton l x ih =>
    have hstep : saveAll (CkptManager.empty S K) (l ++ [x])
        = (saveAll (CkptManager.empty S K) l).save x := by
      rw [saveAll, saveAll, List.foldl_append]
      rfl
    rw [hstep, ih]
    simp only [CkptManager.save]
    rw [take_cons_take]
    simp [List.enum_append, List.enumFrom_singleton, List.reverse_append]

theorem restore_filter_nil (l : List MainEvent)
    (h : MainEvent.restoreCkpt ∉ l) :
    l.filter (· == MainEvent.restoreCkpt) = [] := by
  rw [List.filter_eq_nil_iff]
  intro a ha hpa
  have hae : a = MainEvent.restoreCkpt := by simpa using hpa
  exact h (hae ▸ ha)

theorem restoresFirst_of_not_mem (l : List MainEvent)
    (h : MainEvent.restoreCkpt ∉ l) : restoresFirst l = true := by
  unfold restoresFirst
  have h2 : MainEvent.restoreCkpt ∉ l.dropWhile (· == MainEvent.restoreCkpt) :=
    fun hm => h ((List.dropWhile_sublist _).mem hm)
  rw [restore_filter_nil _ h2]
  rfl

theorem restoresFirst_cons (l : List MainEvent)
    (h : MainEvent.restoreCkpt ∉ l) :
    restoresFirst (MainEvent.restoreCkpt :: l) = true := by
  unfold restoresFirst
  rw [List.dropWhile_cons, if_pos (by simp)]
  have h2 : MainEvent.restoreCkpt ∉ l.dropWhile (· == MainEvent.restoreCkpt) :=
    fun hm => h ((List.dropWhile_sublist _).mem hm)
  rw [restore_filter_nil _ h2]
  rfl

theorem restore_not_mem_work (n : ℕ) (b : Bool) :
    MainEvent.restoreCkpt
      ∉ (List.replicate n MainEvent.trainEpoch
          ++ (if b then [MainEvent.testSample] else [])) := by
  intro hmem
  rcases List.mem_append.mp hmem with h1 | h2
  · exact absurd (List.mem_replicate.mp h1).2 (by simp)
  · cases b <;> simp_all

/-- Claim C5: checkpoint round-trip — for any manager with a positive
retention bound, saving a state and then restoring the latest checkpoint
yields exactly the saved state. -/
theorem C5_checkpoint_roundtrip {S : Type} (m : CkptManager S) (st : S)
    (h : 1 ≤ m.maxToKeep) :
    restoreLatest (m.save st) = some st := by
  obtain ⟨k, hk⟩ := Nat.exists_eq_add_of_le h
  simp only [restoreLatest, CkptManager.latestCheckpoint, CkptManager.save]
  rw [hk, Nat.add_comm 1 k, List.take_succ_cons]
  rfl

/-- Witness for claim C5 on a fresh manager with the default bound 3. -/
theorem C5_witness :
    1 ≤ (CkptManager.empty ℕ 3).maxToKeep
      ∧ restoreLatest ((CkptManager.empty ℕ 3).save 42) = some 42 :=
  ⟨by decide, C5_checkpoint_roundtrip (CkptManager.empty ℕ 3) 42 (by decide)⟩

/-- Claim C6: after any sequence of more than `K` saves into a fresh manager
with retention bound `K`, exactly `K` checkpoints remain, namely the `K` most
recently saved ones (newest first), carrying the `K` largest identifiers. -/
theorem C6_retention {S : Type} (K : ℕ) (states : List S)
    (h : K < states.length) :
    (saveAll (CkptManager.empty S K) states).kept.length = K
      ∧ (saveAll (CkptManager.empty S K) states).kept
          = states.enum.reverse.take K
      ∧ (saveAll (CkptManager.empty S K) states).kept.map Prod.fst
          = (List.range states.length).reverse.take K := by
  rw [saveAll_empty_spec]
  refine ⟨?_, rfl, ?_⟩
  · rw [List.length_take, List.length_reverse, List.enum_length]
    exact min_eq_left h.le
  · rw [List.map_take, List.map_reverse, List.enum_map_fst]

/-- Witness for claim C6: six saves with bound 3 keep exactly the last
three checkpoints, ids 5, 4, 3. -/
theorem C6_witness :
    3 < ([10, 20, 30, 40, 50, 60] : List ℕ).length
      ∧ ((saveAll (CkptManager.empty ℕ 3) [10, 20, 30, 40, 50, 60]).kept.length = 3
          ∧ (saveAll (CkptManager.empty ℕ 3) [10, 20, 30, 40, 50, 60]).kept
              = ([10, 20, 30, 40, 50, 60] : List ℕ).enum.reverse.take 3
          ∧ (saveAll (CkptManager.empty ℕ 3) [10, 20, 30, 40, 50, 60]).kept.map Prod.fst
              = (List.range ([10, 20, 30, 40, 50, 60] : List ℕ).length).reverse.take 3) :=
  ⟨by decide, C6_retention 3 [10, 20, 30, 40, 50, 60] (by decide)⟩

/-- Claim C8: when restoration is requested at process start and no
checkpoint exists, startup completes without error and proceeds with the
freshly initialized parameters; restoration is attempted at most once, and
any restore attempt precedes all training and sampling work. -/
theorem C8_missing_checkpoint {P : Type} (fresh : P) (flag : Bool)
    (mode : String) (numEpochs : ℕ) :
    (runStartup flag mode (none : Option P) fresh).params = fresh
      ∧ (runStartup flag mode (none : Option P) fresh).restoreAttempts ≤ 1
      ∧ restoreCount (mainEvents flag mode numEpochs) ≤ 1
      ∧ restoresFirst (mainEvents flag mode numEpochs) = true := by
  have hW := restore_not_mem_work
    (if mode == "train" then numEpochs else 0) (mode == "test")
  refine ⟨?_, ?_, ?_, ?_⟩
  · unfold runStartup
    split <;> rfl
  · unfold runStartup
    split <;> simp
  · unfold mainEvents restoreCount
    cases hR : restoreRequested flag mode
    · rw [if_neg (by simp), List.nil_append, restore_filter_nil _ hW]
      simp
    · rw [if_pos rfl, List.singleton_append, List.cons_append, List.filter_cons,
        if_pos (by simp), restore_filter_nil _ hW]
      simp
  · unfold mainEvents
    cases hR : restoreRequested flag mode
    · rw [if_neg (by simp), List.nil_append]
      exact restoresFirst_of_not_mem _ hW
    · rw [if_pos rfl, List.singleton_append, List.cons_append]
      exact restoresFirst_cons _ hW
